import Mathlib

/-!
# Verification of the poster-validation result reconciler

Shallow embedding of the deterministic post-processing layer of the
poster-verification service (`src/services/validationPrompt.js`,
class `ValidationService`) together with the HTTP route of `src/app.js`.

The JSON value produced by the upstream model is modelled as a typed
record (`Result`); fields on whose absence the JavaScript code branches
are modelled as `Option`.  JavaScript regular expressions used by the
reconciler are modelled by a small backtracking matcher (`RE`) whose
preference order (leftmost start, alternatives left to right, greedy
quantifiers) coincides with the JavaScript semantics for the fixed
patterns that occur in the source.  `Date.now`-style timestamps are
omitted from the modelled metadata, being wall-clock input.
-/

/-- JavaScript `String.prototype.toLowerCase` restricted to the alphabets
that actually occur in the reconciler's data (ASCII and Arabic, on which
`toLowerCase` only lowers ASCII letters). -/
def jsToLower (s : String) : String := String.mk (s.data.map Char.toLower)

/-- JavaScript `String.prototype.includes`: substring test. -/
def containsSub (hay needle : String) : Bool :=
  hay.data.tails.any (fun t => needle.data.isPrefixOf t)

/-- JavaScript truthiness of a possibly-absent boolean
(`undefined`/`false` are falsy). -/
def jsTruthy : Option Bool → Bool
  | some true => true
  | _ => false

/-- JavaScript falsiness of a possibly-absent string
(`undefined`, `null` and `""` are falsy). -/
def strOptFalsy : Option String → Bool
  | none => true
  | some s => s == ""

/-- The character class `\s` of JavaScript regular expressions, restricted
to the whitespace characters relevant here. -/
def jsWhitespace (c : Char) : Bool :=
  c = ' ' || c = '\t' || c = '\n' || c = '\r'

/-- The `.` of JavaScript regular expressions (without the `s` flag):
any character except a line terminator. -/
def jsDot (c : Char) : Bool := !(c = '\n' || c = '\r')

/-- The character class `[\/\-\.]` used in the date pattern. -/
def dateSep (c : Char) : Bool := c = '/' || c = '-' || c = '.'

/-- Regular expressions, restricted to the constructs used by the source:
single characters, character-class repetitions `p{lo,hi}` (with `hi = none`
for an unbounded repetition), concatenation and alternation. -/
inductive RE where
  | eps : RE
  | chr : Char → RE
  | rep : (Char → Bool) → Nat → Option Nat → RE
  | cat : RE → RE → RE
  | alt : RE → RE → RE

/-- A literal string as a regular expression. -/
def RE.lit (s : String) : RE := s.data.foldr (fun c acc => RE.cat (RE.chr c) acc) RE.eps

/-- Concatenation of a list of regular expressions. -/
def REseq (l : List RE) : RE := l.foldr RE.cat RE.eps

/-- Consume exactly `n` characters satisfying `p`. -/
def forceCls (p : Char → Bool) : Nat → List Char → Option (List Char)
  | 0, s => some s
  | _ + 1, [] => none
  | n + 1, c :: s => if p c then forceCls p n s else none

/-- Suffixes reachable by consuming characters satisfying `p`, longest
consumption first (the greedy preference order). -/
def clsSuffixes (p : Char → Bool) : List Char → List (List Char)
  | [] => [[]]
  | c :: s => if p c then clsSuffixes p s ++ [c :: s] else [c :: s]

/-- Suffixes reachable by consuming at most `n` characters satisfying `p`,
longest consumption first. -/
def boundedSuffixes (p : Char → Bool) : Nat → List Char → List (List Char)
  | 0, s => [s]
  | _ + 1, [] => [[]]
  | n + 1, c :: s => if p c then boundedSuffixes p n s ++ [c :: s] else [c :: s]

/-- Suffixes reachable by a `p{lo,hi}` repetition, greedy order. -/
def repSuffixes (p : Char → Bool) (lo : Nat) (hi : Option Nat) (s : List Char) :
    List (List Char) :=
  match forceCls p lo s with
  | none => []
  | some s' =>
    match hi with
    | none => clsSuffixes p s'
    | some h => boundedSuffixes p (h - lo) s'

/-- All suffixes of the input left after matching the regular expression at
its head, in backtracking preference order (alternatives left to right,
repetitions greedy) — the order in which a JavaScript engine would find
them. -/
def REmatch : RE → List Char → List (List Char)
  | .eps, s => [s]
  | .chr _, [] => []
  | .chr c, d :: s => if d = c then [s] else []
  | .rep p lo hi, s => repSuffixes p lo hi s
  | .cat a b, s => (REmatch a s).flatMap (fun t => REmatch b t)
  | .alt a b, s => REmatch a s ++ REmatch b s

/-- Does the expression match starting at some position (JavaScript
`RegExp.prototype.test`)? -/
def testFrom (r : RE) : List Char → Bool
  | [] => !(REmatch r []).isEmpty
  | c :: s => !(REmatch r (c :: s)).isEmpty || testFrom r s

/-- The characters of the first (leftmost, preferred) match, if any. -/
def searchFrom (r : RE) : List Char → Option (List Char)
  | [] => if (REmatch r []).isEmpty then none else some []
  | c :: s =>
    match (REmatch r (c :: s)).head? with
    | some t => some ((c :: s).take ((c :: s).length - t.length))
    | none => searchFrom r s

/-- JavaScript `pattern.test(s)`. -/
def RE.test (r : RE) (s : String) : Bool := testFrom r s.data

/-- JavaScript `s.match(pattern)[0]` (the first matched substring). -/
def RE.firstMatch (r : RE) (s : String) : Option String :=
  (searchFrom r s.data).map String.mk

/-- `\s*` -/
def ws0 : RE := .rep jsWhitespace 0 none

/-- `.*` -/
def dotStar : RE := .rep jsDot 0 none

/-- `\d{lo,hi}` -/
def digits (lo : Nat) (hi : Option Nat) : RE := .rep Char.isDigit lo hi

/-- `/فتح\s*ملف\s*باحثين|ملف\s*الباحثين/i` (validateTextContent check 1). -/
def jobSeekerPattern : RE :=
  .alt (REseq [.lit "فتح", ws0, .lit "ملف", ws0, .lit "باحثين"])
       (REseq [.lit "ملف", ws0, .lit "الباحثين"])

/-- `/أن\s*تكون.*مكتملة|ضمان.*خدمات|ضمان.*حصول/i` (validateTextContent check 2). -/
def completeServicePattern : RE :=
  .alt (REseq [.lit "أن", ws0, .lit "تكون", dotStar, .lit "مكتملة"])
       (.alt (REseq [.lit "ضمان", dotStar, .lit "خدمات"])
             (REseq [.lit "ضمان", dotStar, .lit "حصول"]))

/-- `/سأسعى\s*(على|لـ?)\s*حصول/i` (validateTextContent check 3); the group
is the alternative of the literal `على` and the letter `ل` followed by an
optional tatweel `ـ`. -/
def seekObtainPattern : RE :=
  REseq [.lit "سأسعى", ws0,
         .alt (.lit "على") (REseq [.chr 'ل', .rep (fun c => c = 'ـ') 0 (some 1)]),
         ws0, .lit "حصول"]

/-- `/\d{8,}/` — phone numbers (8+ digits). -/
def phonePattern : RE := digits 8 none

/-- `/\d{1,2}[\/\-\.]\d{1,2}[\/\-\.]\d{2,4}/` — dates. -/
def datePattern : RE :=
  REseq [digits 1 (some 2), .rep dateSep 1 (some 1),
         digits 1 (some 2), .rep dateSep 1 (some 1), digits 2 (some 4)]

/-- `/سنة.*\d+|\d+.*سنة/` — age mentions. -/
def agePattern : RE :=
  .alt (REseq [.lit "سنة", dotStar, digits 1 none])
       (REseq [digits 1 none, dotStar, .lit "سنة"])

/-- `/للتواصل.*\d+|\d+.*للتواصل/` — contact numbers. -/
def contactPattern : RE :=
  .alt (REseq [.lit "للتواصل", dotStar, digits 1 none])
       (REseq [digits 1 none, dotStar, .lit "للتواصل"])

/-- `/رؤية.*\d{4}|\d{4}.*رؤية/` — vision statements. -/
def visionPattern : RE :=
  .alt (REseq [.lit "رؤية", dotStar, digits 4 (some 4)])
       (REseq [digits 4 (some 4), dotStar, .lit "رؤية"])

/-- The `falsePositivePatterns` array of `validateNumberDetection`, in
source order. -/
def falsePositivePatterns : List RE :=
  [phonePattern, datePattern, agePattern, contactPattern, visionPattern]

/-- `/رقم\s*المرشح|المرشح\s*رقم/` — the true-positive context phrase. -/
def candidateContextPattern : RE :=
  .alt (REseq [.lit "رقم", ws0, .lit "المرشح"])
       (REseq [.lit "المرشح", ws0, .lit "رقم"])

/-! ## The data model: the `ValidationResult` JSON object -/

/-- `_analysis_trace` of the output schema. -/
structure AnalysisTrace where
  step1_content_extraction : String
  step2_document_type : String
  step3_violations_found : List String
  step4_decision_logic : String
deriving DecidableEq

/-- `documentType` of the output schema.  `isElectionPropaganda` is
optional because the reconciler compares it with `=== false` and the
schema check tests its presence. -/
structure DocumentType where
  isElectionPropaganda : Option Bool := none
  actualType : String := ""
  confidence : Nat := 0
  reasoning : String := ""
deriving DecidableEq

/-- `imageQuality` of the output schema. -/
structure ImageQuality where
  isAcceptable : Bool
  issues : List String
deriving DecidableEq

/-- An item of `categories.prohibitedContent.items`. -/
structure ProhibitedItem where
  rule : String
  found : Bool
  confidence : Nat := 0
  details : String := ""
  location : String := ""
deriving DecidableEq

/-- An item of `categories.requiredContent.items`. -/
structure RequiredItem where
  element : String
  present : Bool
  quality : String := ""
deriving DecidableEq

/-- An item of `categories.contentScope.items`. -/
structure ContentScopeItem where
  rule : String
  violated : Bool
  confidence : Nat := 0
  violatingObjectives : List String := []
  explanation : String := ""
deriving DecidableEq

/-- An item of `categories.languageEthics.items`. -/
structure LanguageEthicsItem where
  rule : String
  passed : Bool
  details : String := ""
deriving DecidableEq

/-- `categories.prohibitedContent`. -/
structure ProhibitedContent where
  status : String := ""
  items : List ProhibitedItem := []
deriving DecidableEq

/-- `categories.requiredContent`. -/
structure RequiredContent where
  status : String := ""
  items : List RequiredItem := []
deriving DecidableEq

/-- `categories.contentScope`. -/
structure ContentScope where
  status : String := ""
  items : List ContentScopeItem := []
deriving DecidableEq

/-- `categories.languageEthics`. -/
structure LanguageEthics where
  status : String := ""
  items : List LanguageEthicsItem := []
deriving DecidableEq

/-- `categories`; every sub-object is optional, matching the optional
chaining (`result.categories?.prohibitedContent?.items`) in the source. -/
structure Categories where
  prohibitedContent : Option ProhibitedContent := none
  requiredContent : Option RequiredContent := none
  contentScope : Option ContentScope := none
  languageEthics : Option LanguageEthics := none
deriving DecidableEq

/-- `extractedText`; only `rawText` is read by the reconciler, the other
subfields are never consumed after the model call. -/
structure ExtractedText where
  rawText : String := ""
deriving DecidableEq

/-- A warning appended by `validateNumberDetection`. -/
structure Warning where
  type : String
  rule : String
  message : String
  details : Option String := none
  confidence : Nat
deriving DecidableEq

/-- `schemaValidation` attached when the schema check finds errors. -/
structure SchemaValidation where
  valid : Bool
  errors : List String
deriving DecidableEq

/-- `metadata`.  The source also stamps `timestamp: new Date().toISOString()`,
a wall-clock input omitted from the model; `modelUsed`, `hasAnalysisTrace`
and `schemaValid` are stamped at the end of reconciliation while
`logicCorrectionApplied`/`correctionReason` are set by
`fixNonElectionLogic`. -/
structure Metadata where
  modelUsed : Option String := none
  hasAnalysisTrace : Option Bool := none
  schemaValid : Option Bool := none
  logicCorrectionApplied : Option Bool := none
  correctionReason : Option String := none
deriving DecidableEq

/-- The `ValidationResult` object flowing through the reconciler.  Fields
that the source may find absent (and branches on) are `Option`; `warnings`
conflates “absent” with “empty”, which the source never distinguishes
observably. -/
structure Result where
  isCompliant : Option Bool := none
  overallScore : Option Int := none
  summary : String := ""
  rejectionReason : Option String := none
  documentType : Option DocumentType := none
  imageQuality : Option ImageQuality := none
  categories : Option Categories := none
  extractedText : Option ExtractedText := none
  _analysis_trace : Option AnalysisTrace := none
  warnings : List Warning := []
  validationConfidence : Option Int := none
  metadata : Option Metadata := none
  schemaValidation : Option SchemaValidation := none
  error : Option String := none
deriving DecidableEq

/-- `result.extractedText?.rawText || ""` / `?? ''`. -/
def rawTextOf (r : Result) : String := (r.extractedText.map (·.rawText)).getD ""

/-- `result.categories?.prohibitedContent?.items || []`. -/
def prohibitedItemsOf (r : Result) : List ProhibitedItem :=
  ((r.categories.bind (·.prohibitedContent)).map (·.items)).getD []

/-- `result.categories?.contentScope?.items || []`. -/
def contentScopeItemsOf (r : Result) : List ContentScopeItem :=
  ((r.categories.bind (·.contentScope)).map (·.items)).getD []

/-- `result.categories?.requiredContent?.items || []`. -/
def requiredItemsOf (r : Result) : List RequiredItem :=
  ((r.categories.bind (·.requiredContent)).map (·.items)).getD []

/-! ## The reconciler (`ValidationService` of `validationPrompt.js`) -/

/-- `validateSchema` (Fix #1): the ordered list of human-readable errors
for missing mandatory fields; absent JSON values of the wrong type are
`none`, a missing string is `""`. -/
def validateSchema (result : Result) : List String :=
  (if result.isCompliant.isNone then ["Missing isCompliant"] else []) ++
  (if result.overallScore.isNone then ["Missing overallScore"] else []) ++
  (if result.summary = "" then ["Missing summary"] else []) ++
  (match result.documentType with
   | none => ["Missing documentType"]
   | some dt =>
     (if dt.isElectionPropaganda.isNone then ["Missing documentType.isElectionPropaganda"] else []) ++
     (if dt.actualType = "" then ["Missing documentType.actualType"] else [])) ++
  (match result.categories with
   | none => ["Missing categories"]
   | some c =>
     (if c.prohibitedContent.isNone then ["Missing prohibitedContent"] else []) ++
     (if c.requiredContent.isNone then ["Missing requiredContent"] else []) ++
     (if c.contentScope.isNone then ["Missing contentScope"] else []) ++
     (if c.languageEthics.isNone then ["Missing languageEthics"] else [])) ++
  (if result.extractedText.isNone then ["Missing extractedText"] else [])

/-- The `typeMap` object literal of `generateRejectionReason`, with its
`|| "This is not election propaganda"` fallback. -/
def typeMapLookup (t : String) : String :=
  if t = "training_ad" then
    "The request is an advertisement for a training course and not an election advertisement for the candidate"
  else if t = "press_interview" then
    "The attached document is a press interview and not election propaganda"
  else if t = "proposal" then
    "The publication has nothing to do with election propaganda. Rather, it is a proposal to solve a problem"
  else if t = "social_post" then
    "The post has nothing to do with election propaganda"
  else "This is not election propaganda"

/-- The image-quality early return of `generateRejectionReason`:
`result.imageQuality && !result.imageQuality.isAcceptable &&
result.imageQuality.issues.includes('blurry')`. -/
def isBlurry (result : Result) : Bool :=
  match result.imageQuality with
  | some iq => !iq.isAcceptable && iq.issues.contains "blurry"
  | none => false

/-- The prohibited-content section of `generateRejectionReason`: the first
early `return` taken for the given violation list (`none` when the section
falls through). -/
def rejectionFromProhibited (violations : List ProhibitedItem) : Option String :=
  let hasNumber := (violations.find? (·.rule == "CANDIDATE_NUMBER")).isSome
  let hasLogo := (violations.find? (·.rule == "ELECTION_LOGO")).isSome
  if hasNumber && hasLogo then
    some "Removal of the candidate's number and election logo is required"
  else if hasNumber then some "Please remove the candidate number"
  else if hasLogo then some "Please remove the election logo"
  else
    match violations.find? (·.rule == "HISTORICAL_SYMBOLS") with
    | some historical =>
      let detail := jsToLower historical.details
      if containsSub detail "fort" || containsSub detail "castle" then
        some "Please remove the fort/castle from the image background as it is a historical symbol"
      else if containsSub detail "gate" then
        some "Please remove the gate from the image background as it is a historical symbol"
      else some "Please remove the historical symbol from the image background"
    | none =>
      if (violations.find? (·.rule == "PUBLIC_FIGURES")).isSome then
        some "The poster contains public figures"
      else if (violations.find? (·.rule == "STATE_EMBLEM")).isSome then
        some "Please remove the state emblem"
      else if (violations.find? (·.rule == "NATIONAL_FLAG")).isSome then
        some "Please remove the national flag"
      else none

/-- The content-scope section of `generateRejectionReason`. -/
def rejectionFromScope (scopeViolations : List ContentScopeItem) : Option String :=
  if (scopeViolations.find? (·.rule == "OBJECTIVES_OUTSIDE_POWERS")).isSome then
    some "Most of the objectives mentioned fall outside the legally defined powers of the Shura Council members"
  else if (scopeViolations.find? (·.rule == "ELECTION_PROMISES")).isSome then
    some "The content of the objective involves an election promise"
  else if (scopeViolations.find? (·.rule == "DEVIATION_FROM_SCOPE")).isSome then
    some "The poster deviated from the content of the election campaign, which includes the candidate's picture, biography, electoral vision, goals, or roles"
  else if (scopeViolations.find? (·.rule == "PREVIOUS_TERM_EXPLOITATION")).isSome then
    some "Cannot exploit the previous term achievements"
  else none

/-- The required-content section of `generateRejectionReason`. -/
def rejectionFromRequired (required : List RequiredItem) : Option String :=
  let missingPhoto := (required.find? (fun i => i.element == "CANDIDATE_PHOTO" && !i.present)).isSome
  let missingName := (required.find? (fun i => i.element == "CANDIDATE_NAME" && !i.present)).isSome
  if missingPhoto || missingName then
    some "Election campaigning is limited to the following: candidate photo, name, CV, and vision"
  else none

/-- The part of `generateRejectionReason` after the document-type guard:
image quality, then prohibited content, then content scope, then required
content, then the generic fallback — first early `return` wins. -/
def generateRejectionReasonRest (result : Result) : String :=
  if isBlurry result then "Photo is blurry"
  else
    match rejectionFromProhibited ((prohibitedItemsOf result).filter (·.found)) with
    | some msg => msg
    | none =>
      match rejectionFromScope ((contentScopeItemsOf result).filter (·.violated)) with
      | some msg => msg
      | none =>
        match rejectionFromRequired (requiredItemsOf result) with
        | some msg => msg
        | none => "Poster does not comply with election campaign regulations"

/-- `generateRejectionReason`: the priority-ordered synthesis of a
rejection reason.  The first guard is `result.documentType &&
!result.documentType.isElectionPropaganda` (truthy object, falsy flag),
returning the `typeMap` message. -/
def generateRejectionReason (result : Result) : String :=
  match result.documentType with
  | some dt =>
    if jsTruthy dt.isElectionPropaganda then generateRejectionReasonRest result
    else typeMapLookup dt.actualType
  | none => generateRejectionReasonRest result

/-- `fixNonElectionLogic`: if `documentType?.isElectionPropaganda === false`
and `isCompliant === true`, force non-compliance, replace the step-4 trace
line, synthesize a rejection reason if absent, and merge correction flags
into `metadata`. -/
def fixNonElectionLogic (result : Result) : Result :=
  match result.documentType with
  | some dt =>
    if dt.isElectionPropaganda = some false then
      if result.isCompliant = some true then
        let result := { result with isCompliant := some false, overallScore := some 0 }
        let result :=
          match result._analysis_trace with
          | some t =>
            { result with _analysis_trace := some { t with step4_decision_logic :=
                "Non-compliant because this is not election propaganda (" ++ dt.actualType ++
                "). It cannot be validated as an election poster." } }
          | none => result
        let result :=
          if strOptFalsy result.rejectionReason then
            { result with rejectionReason := some (generateRejectionReason result) }
          else result
        let md := result.metadata.getD {}
        { result with metadata := some { md with
            logicCorrectionApplied := some true,
            correctionReason := some "Non-election material incorrectly marked as compliant" } }
      else result
    else result
  | none => result

/-- The warnings `validateNumberDetection` (Fix #2) pushes for the current
result: a single `POSSIBLE_FALSE_POSITIVE` if any false-positive pattern
matches the item details or the raw text (the source loop `break`s after
the first hit), and a `MISSING_CONTEXT` if the candidate-number phrase is
absent from the raw text. -/
def numberWarnings (result : Result) : List Warning :=
  match (prohibitedItemsOf result).find? (·.rule == "CANDIDATE_NUMBER") with
  | some candidateNumberItem =>
    if candidateNumberItem.found then
      let details := jsToLower candidateNumberItem.details
      let extractedText := jsToLower (rawTextOf result)
      (if falsePositivePatterns.any (fun p => p.test details || p.test extractedText) then
        [{ type := "POSSIBLE_FALSE_POSITIVE", rule := "CANDIDATE_NUMBER",
           message := "Number detection may be false positive (phone/date/age). Verify context.",
           details := some candidateNumberItem.details, confidence := 60 }]
       else []) ++
      (if !(candidateContextPattern.test extractedText) then
        [{ type := "MISSING_CONTEXT", rule := "CANDIDATE_NUMBER",
           message := "Number flagged but missing \"رقم المرشح\" context. May be phone/date/age.",
           confidence := 70 }]
       else [])
    else []
  | none => []

/-- `validateNumberDetection`: appends its warnings to `result.warnings`
(creating the array if absent). -/
def validateNumberDetection (result : Result) : Result :=
  { result with warnings := result.warnings ++ numberWarnings result }

/-- `flagDeterministicViolation`: force non-compliance, set or extend the
rejection reason (append with `" | "` unless already a substring), insert a
`confidence = 100` content-scope item unless an item with the same rule and
same first violating text exists, and append an enforcement note to the
step-4 trace line. -/
def flagDeterministicViolation (result : Result) (rule : String)
    (violatingObjectives : List String) (explanation rejectionMsg : String) : Result :=
  let result := { result with isCompliant := some false, overallScore := some 0 }
  let result :=
    if strOptFalsy result.rejectionReason then
      { result with rejectionReason := some rejectionMsg }
    else
      let s := result.rejectionReason.getD ""
      if containsSub s rejectionMsg then result
      else { result with rejectionReason := some (s ++ " | " ++ rejectionMsg) }
  let cats := result.categories.getD {}
  let cs := cats.contentScope.getD { status := "fail", items := [] }
  let dup := cs.items.any (fun item =>
    item.rule == rule && item.violatingObjectives.head? == violatingObjectives.head?)
  let cs :=
    if dup then cs
    else { status := "fail",
           items := cs.items ++ [{ rule := rule, violated := true, confidence := 100,
                                   violatingObjectives := violatingObjectives,
                                   explanation := explanation }] }
  let result := { result with categories := some { cats with contentScope := some cs } }
  match result._analysis_trace with
  | some t =>
    { result with _analysis_trace := some { t with step4_decision_logic :=
        t.step4_decision_logic ++ " [System enforced violation: " ++ explanation ++ "]" } }
  | none => result

/-- `validateTextContent`: the deterministic safety net; the text is read
once and each of the three fixed patterns, when it matches, flags a
violation with the first matched substring. -/
def validateTextContent (result : Result) : Result :=
  let text := rawTextOf result
  let result :=
    if jobSeekerPattern.test text then
      flagDeterministicViolation result "OBJECTIVES_OUTSIDE_POWERS"
        [(jobSeekerPattern.firstMatch text).getD ""]
        "Prohibited content: 'Job Seeker File' (ملف الباحثين) is an executive authority matter."
        "Prohibited content: Mentioning 'Job Seeker File' (ملف الباحثين) is strictly prohibited."
    else result
  let result :=
    if completeServicePattern.test text then
      flagDeterministicViolation result "OBJECTIVES_OUTSIDE_POWERS"
        [(completeServicePattern.firstMatch text).getD ""]
        "Prohibited content: Guaranteeing services or completeness is outside Shura powers."
        "Prohibited content: Candidates cannot guarantee service completion or outcomes."
    else result
  if seekObtainPattern.test text then
    flagDeterministicViolation result "ELECTION_PROMISES"
      [(seekObtainPattern.firstMatch text).getD ""]
      "Prohibited Grammar: 'Seeking to obtain' (سأسعى للحصول) implies executive benefit delivery."
      "Prohibited language: 'Seeking to obtain' (سأسعى للحصول) is a prohibited form of promise."
  else result

/-- The `confidences` array of `getAverageItemConfidence`: the confidence
values of prohibited-content then content-scope items, skipping falsy
(absent or `0`) values. -/
def scoredConfidences (result : Result) : List Nat :=
  (prohibitedItemsOf result).filterMap
      (fun item => if item.confidence ≠ 0 then some item.confidence else none) ++
  (contentScopeItemsOf result).filterMap
      (fun item => if item.confidence ≠ 0 then some item.confidence else none)

/-- `getAverageItemConfidence`: mean of the scored confidences, `85` when
none contribute; the JavaScript float mean is an exact rational. -/
def getAverageItemConfidence (result : Result) : ℚ :=
  let confidences := scoredConfidences result
  if confidences.isEmpty then 85
  else (confidences.sum : ℚ) / confidences.length

/-- `calculateConfidence`: base 90, four adjustments, clamp to [50, 100].
The source reads `result._analysis_trace` unguarded; it only runs after
trace synthesis, so the default trace here is never consulted in the
pipeline. -/
def calculateConfidence (result : Result) : Int :=
  let trace := result._analysis_trace.getD
    { step1_content_extraction := "", step2_document_type := "",
      step3_violations_found := [], step4_decision_logic := "" }
  let confidence : Int := 90
  let confidence :=
    if trace.step1_content_extraction = "" ∨ trace.step1_content_extraction = "Not provided"
    then confidence - 20 else confidence
  let confidence :=
    if trace.step3_violations_found.isEmpty then
      if !(jsTruthy result.isCompliant) then confidence - 10 else confidence
    else confidence
  let confidence :=
    match result.documentType with
    | some dt => if dt.reasoning ≠ "" ∧ dt.reasoning.length > 20 then confidence + 5 else confidence
    | none => confidence
  let confidence :=
    if getAverageItemConfidence result < 70 then confidence - 10 else confidence
  max 50 (min 100 confidence)

/-- Step 1 of `validateAndEnrichResult`: attach `schemaValidation` when the
error list is non-empty (nothing is attached when it is empty). -/
def attachSchemaValidation (result : Result) : Result :=
  if validateSchema result = [] then result
  else { result with schemaValidation := some { valid := false, errors := validateSchema result } }

/-- Step 3 of `validateAndEnrichResult`: synthesize a placeholder
`_analysis_trace` when absent. -/
def ensureTrace (result : Result) : Result :=
  if result._analysis_trace.isNone then
    let placeholder : AnalysisTrace :=
      { step1_content_extraction := "Not provided", step2_document_type := "Not provided",
        step3_violations_found := [], step4_decision_logic := "Not provided" }
    { result with _analysis_trace := some placeholder }
  else result

/-- Step 5 of `validateAndEnrichResult`: store the computed confidence. -/
def setValidationConfidence (result : Result) : Result :=
  { result with validationConfidence := some (calculateConfidence result) }

/-- Step 6 of `validateAndEnrichResult`: synthesize a rejection reason when
non-compliant (JavaScript falsy `isCompliant`) and none is present. -/
def ensureRejectionReason (result : Result) : Result :=
  if !(jsTruthy result.isCompliant) && strOptFalsy result.rejectionReason then
    { result with rejectionReason := some (generateRejectionReason result) }
  else result

/-- Step 7 of `validateAndEnrichResult`: `result.metadata = {...}` — a
fresh object replacing any previous `metadata` (in particular the
correction flags set by `fixNonElectionLogic` are lost);
`validationErrors` is the snapshot taken at entry. -/
def stampMetadata (validationErrors : List String) (result : Result) : Result :=
  { result with metadata := some {
      modelUsed := some "qwen3-vl-plus",
      hasAnalysisTrace :=
        some (((result._analysis_trace.map (·.step1_content_extraction)).getD "") ≠ ""),
      schemaValid := some (validationErrors = []) } }

/-- `validateAndEnrichResult`: the reconciliation pipeline, in source
order. -/
def validateAndEnrichResult (result : Result) : Result :=
  let validationErrors := validateSchema result
  stampMetadata validationErrors
    (ensureRejectionReason
      (setValidationConfidence
        (validateTextContent
          (validateNumberDetection
            (ensureTrace
              (fixNonElectionLogic
                (attachSchemaValidation result)))))))

/-- `ValidationService.validatePoster`: the `try`/`catch` around the model
call and post-processing.  The upstream analysis (network call + JSON
parse) is abstracted as an `Except` outcome; an error is converted to the
synthetic non-compliant result of the `catch` block. -/
def validatePoster (analysis : Except String Result) : Result :=
  match analysis with
  | .ok aiResult => validateAndEnrichResult aiResult
  | .error msg =>
    let errorTrace : AnalysisTrace :=
      { step1_content_extraction := "Error occurred", step2_document_type := "Could not analyze",
        step3_violations_found := [], step4_decision_logic := "System error" }
    { isCompliant := some false,
      overallScore := some 0,
      summary := "Validation failed due to technical error",
      rejectionReason := some ("Technical error: " ++ msg),
      error := some msg,
      _analysis_trace := some errorTrace }

/-- The `POST /api/validate` handler of `src/app.js`: awaits the OCR, the
`analyzePoster` model call of `ai.service.js` and `JSON.parse` with no
`try`/`catch`; any failure propagates out of the handler instead of being
converted to a response body. -/
def postValidateHandler (ocr : Except String String)
    (analyze : String → Except String String)
    (parse : String → Except String Result) : Except String Result :=
  match ocr with
  | .error e => .error e
  | .ok textContext =>
    match analyze textContext with
    | .error e => .error e
    | .ok raw => parse raw

/-! ## The confidence formula as the specification words it -/

/-- The `validationConfidence` formula as the specification states it
(C7): 90, minus 20 for a missing/placeholder step-1 extraction, minus 10
for a non-compliant result with an empty trace violations list, plus 5 for
a document-type reasoning longer than 20 characters, minus 10 for a mean
item confidence below 70, clamped to [50, 100].  Stated independently of
`calculateConfidence` to compare the two. -/
def confidenceSpec (r : Result) : Int :=
  let trace := r._analysis_trace.getD
    { step1_content_extraction := "", step2_document_type := "",
      step3_violations_found := [], step4_decision_logic := "" }
  let d1 : Int :=
    if trace.step1_content_extraction = "" ∨ trace.step1_content_extraction = "Not provided"
    then 20 else 0
  let d2 : Int :=
    if trace.step3_violations_found.isEmpty ∧ ¬(jsTruthy r.isCompliant = true) then 10 else 0
  let d3 : Int := if 20 < (r.documentType.map (·.reasoning.length)).getD 0 then 5 else 0
  let d4 : Int := if getAverageItemConfidence r < 70 then 10 else 0
  max 50 (min 100 (90 - d1 - d2 + d3 - d4))

/-! ## Projection lemmas for the reconciliation steps -/

theorem flag_isCompliant (r : Result) (a : String) (b : List String) (c d : String) :
    (flagDeterministicViolation r a b c d).isCompliant = some false := by
  simp only [flagDeterministicViolation]
  repeat' split
  all_goals rfl

theorem flag_overallScore (r : Result) (a : String) (b : List String) (c d : String) :
    (flagDeterministicViolation r a b c d).overallScore = some 0 := by
  simp only [flagDeterministicViolation]
  repeat' split
  all_goals rfl

theorem flag_extractedText (r : Result) (a : String) (b : List String) (c d : String) :
    (flagDeterministicViolation r a b c d).extractedText = r.extractedText := by
  simp only [flagDeterministicViolation]
  repeat' split
  all_goals rfl

theorem flag_warnings (r : Result) (a : String) (b : List String) (c d : String) :
    (flagDeterministicViolation r a b c d).warnings = r.warnings := by
  simp only [flagDeterministicViolation]
  repeat' split
  all_goals rfl

theorem flag_documentType (r : Result) (a : String) (b : List String) (c d : String) :
    (flagDeterministicViolation r a b c d).documentType = r.documentType := by
  simp only [flagDeterministicViolation]
  repeat' split
  all_goals rfl

theorem flag_validationConfidence (r : Result) (a : String) (b : List String) (c d : String) :
    (flagDeterministicViolation r a b c d).validationConfidence = r.validationConfidence := by
  simp only [flagDeterministicViolation]
  repeat' split
  all_goals rfl

theorem flag_schemaValidation (r : Result) (a : String) (b : List String) (c d : String) :
    (flagDeterministicViolation r a b c d).schemaValidation = r.schemaValidation := by
  simp only [flagDeterministicViolation]
  repeat' split
  all_goals rfl

theorem flag_prohibitedItems (r : Result) (a : String) (b : List String) (c d : String) :
    prohibitedItemsOf (flagDeterministicViolation r a b c d) = prohibitedItemsOf r := by
  simp only [flagDeterministicViolation]
  repeat' split
  all_goals unfold prohibitedItemsOf
  all_goals cases hc : r.categories <;> simp [hc]

/-- The injected content-scope item of `flagDeterministicViolation`. -/
def injectedItem (rule : String) (violatingObjectives : List String)
    (explanation : String) : ContentScopeItem :=
  { rule := rule, violated := true, confidence := 100,
    violatingObjectives := violatingObjectives, explanation := explanation }

theorem flag_contentScopeItems (r : Result) (a : String) (b : List String) (c d : String) :
    contentScopeItemsOf (flagDeterministicViolation r a b c d) =
      if (contentScopeItemsOf r).any (fun item =>
            item.rule == a && item.violatingObjectives.head? == b.head?)
      then contentScopeItemsOf r
      else contentScopeItemsOf r ++ [injectedItem a b c] := by
  unfold contentScopeItemsOf injectedItem
  simp only [flagDeterministicViolation]
  cases hc : r.categories with
  | none => repeat' split
            all_goals simp_all
  | some cval =>
    cases hcs : cval.contentScope with
    | none => repeat' split
              all_goals simp_all
    | some csval => repeat' split
                    all_goals simp_all
                    all_goals tauto

theorem asv_isCompliant (r : Result) : (attachSchemaValidation r).isCompliant = r.isCompliant := by
  unfold attachSchemaValidation
  split <;> rfl

theorem asv_overallScore (r : Result) :
    (attachSchemaValidation r).overallScore = r.overallScore := by
  unfold attachSchemaValidation
  split <;> rfl

theorem asv_documentType (r : Result) :
    (attachSchemaValidation r).documentType = r.documentType := by
  unfold attachSchemaValidation
  split <;> rfl

theorem asv_categories (r : Result) : (attachSchemaValidation r).categories = r.categories := by
  unfold attachSchemaValidation
  split <;> rfl

theorem asv_extractedText (r : Result) :
    (attachSchemaValidation r).extractedText = r.extractedText := by
  unfold attachSchemaValidation
  split <;> rfl

theorem asv_trace (r : Result) :
    (attachSchemaValidation r)._analysis_trace = r._analysis_trace := by
  unfold attachSchemaValidation
  split <;> rfl

theorem asv_warnings (r : Result) : (attachSchemaValidation r).warnings = r.warnings := by
  unfold attachSchemaValidation
  split <;> rfl

theorem asv_rejectionReason (r : Result) :
    (attachSchemaValidation r).rejectionReason = r.rejectionReason := by
  unfold attachSchemaValidation
  split <;> rfl

theorem asv_id (r : Result) (h : validateSchema r = []) : attachSchemaValidation r = r := by
  unfold attachSchemaValidation
  simp [h]

theorem fnel_documentType (r : Result) :
    (fixNonElectionLogic r).documentType = r.documentType := by
  simp only [fixNonElectionLogic]
  repeat' split
  all_goals rfl

theorem fnel_categories (r : Result) : (fixNonElectionLogic r).categories = r.categories := by
  simp only [fixNonElectionLogic]
  repeat' split
  all_goals rfl

theorem fnel_extractedText (r : Result) :
    (fixNonElectionLogic r).extractedText = r.extractedText := by
  simp only [fixNonElectionLogic]
  repeat' split
  all_goals rfl

theorem fnel_warnings (r : Result) : (fixNonElectionLogic r).warnings = r.warnings := by
  simp only [fixNonElectionLogic]
  repeat' split
  all_goals rfl

theorem fnel_summary (r : Result) : (fixNonElectionLogic r).summary = r.summary := by
  simp only [fixNonElectionLogic]
  repeat' split
  all_goals rfl

theorem fnel_imageQuality (r : Result) :
    (fixNonElectionLogic r).imageQuality = r.imageQuality := by
  simp only [fixNonElectionLogic]
  repeat' split
  all_goals rfl

theorem fnel_validationConfidence (r : Result) :
    (fixNonElectionLogic r).validationConfidence = r.validationConfidence := by
  simp only [fixNonElectionLogic]
  repeat' split
  all_goals rfl

theorem fnel_schemaValidation (r : Result) :
    (fixNonElectionLogic r).schemaValidation = r.schemaValidation := by
  simp only [fixNonElectionLogic]
  repeat' split
  all_goals rfl

theorem fnel_trace_isSome (r : Result) :
    (fixNonElectionLogic r)._analysis_trace.isSome = r._analysis_trace.isSome := by
  simp only [fixNonElectionLogic]
  repeat' split
  all_goals simp_all

/-- When the document is marked non-election and the model said compliant,
`fixNonElectionLogic` forces `isCompliant = false` and `overallScore = 0`. -/
theorem fnel_forces (r : Result) (dt : DocumentType)
    (hdt : r.documentType = some dt) (hep : dt.isElectionPropaganda = some false)
    (hic : r.isCompliant = some true) :
    (fixNonElectionLogic r).isCompliant = some false ∧
      (fixNonElectionLogic r).overallScore = some 0 := by
  simp only [fixNonElectionLogic, hdt, hep, hic]
  repeat' split
  all_goals simp_all

/-- After `fixNonElectionLogic`, a non-election result is never left marked
compliant. -/
theorem fnel_not_true (r : Result)
    (h : r.documentType.bind (·.isElectionPropaganda) = some false) :
    (fixNonElectionLogic r).isCompliant ≠ some true := by
  cases hdt : r.documentType with
  | none => simp [hdt] at h
  | some dt =>
    rw [hdt] at h
    simp only [Option.bind] at h
    simp only [fixNonElectionLogic, hdt, h]
    repeat' split
    all_goals simp_all

theorem fnel_isCompliant_isSome (r : Result) (h : r.isCompliant.isSome) :
    (fixNonElectionLogic r).isCompliant.isSome := by
  simp only [fixNonElectionLogic]
  repeat' split
  all_goals simp_all

theorem fnel_overallScore_isSome (r : Result) (h : r.overallScore.isSome) :
    (fixNonElectionLogic r).overallScore.isSome := by
  simp only [fixNonElectionLogic]
  repeat' split
  all_goals simp_all

theorem et_isCompliant (r : Result) : (ensureTrace r).isCompliant = r.isCompliant := by
  unfold ensureTrace
  split <;> rfl

theorem et_overallScore (r : Result) : (ensureTrace r).overallScore = r.overallScore := by
  unfold ensureTrace
  split <;> rfl

theorem et_categories (r : Result) : (ensureTrace r).categories = r.categories := by
  unfold ensureTrace
  split <;> rfl

theorem et_extractedText (r : Result) : (ensureTrace r).extractedText = r.extractedText := by
  unfold ensureTrace
  split <;> rfl

theorem et_warnings (r : Result) : (ensureTrace r).warnings = r.warnings := by
  unfold ensureTrace
  split <;> rfl

theorem et_rejectionReason (r : Result) : (ensureTrace r).rejectionReason = r.rejectionReason := by
  unfold ensureTrace
  split <;> rfl

theorem et_documentType (r : Result) : (ensureTrace r).documentType = r.documentType := by
  unfold ensureTrace
  split <;> rfl

theorem et_schemaValidation (r : Result) :
    (ensureTrace r).schemaValidation = r.schemaValidation := by
  unfold ensureTrace
  split <;> rfl

theorem et_trace_isSome (r : Result) : (ensureTrace r)._analysis_trace.isSome := by
  unfold ensureTrace
  split <;> simp_all [Option.isNone_iff_eq_none]
  cases h : r._analysis_trace <;> simp_all

theorem et_id (r : Result) (h : r._analysis_trace.isSome) : ensureTrace r = r := by
  unfold ensureTrace
  split <;> simp_all

theorem vnd_id (r : Result) (h : numberWarnings r = []) : validateNumberDetection r = r := by
  unfold validateNumberDetection
  simp [h]

theorem vnd_isCompliant (r : Result) :
    (validateNumberDetection r).isCompliant = r.isCompliant := rfl

theorem vnd_overallScore (r : Result) :
    (validateNumberDetection r).overallScore = r.overallScore := rfl

theorem vnd_categories (r : Result) :
    (validateNumberDetection r).categories = r.categories := rfl

theorem vnd_extractedText (r : Result) :
    (validateNumberDetection r).extractedText = r.extractedText := rfl

theorem vnd_trace (r : Result) :
    (validateNumberDetection r)._analysis_trace = r._analysis_trace := rfl

theorem vnd_rejectionReason (r : Result) :
    (validateNumberDetection r).rejectionReason = r.rejectionReason := rfl

theorem vnd_documentType (r : Result) :
    (validateNumberDetection r).documentType = r.documentType := rfl

theorem vnd_schemaValidation (r : Result) :
    (validateNumberDetection r).schemaValidation = r.schemaValidation := rfl

theorem vnd_warnings (r : Result) :
    (validateNumberDetection r).warnings = r.warnings ++ numberWarnings r := rfl

theorem svc_isCompliant (r : Result) :
    (setValidationConfidence r).isCompliant = r.isCompliant := rfl

theorem svc_overallScore (r : Result) :
    (setValidationConfidence r).overallScore = r.overallScore := rfl

theorem svc_categories (r : Result) :
    (setValidationConfidence r).categories = r.categories := rfl

theorem svc_extractedText (r : Result) :
    (setValidationConfidence r).extractedText = r.extractedText := rfl

theorem svc_trace (r : Result) :
    (setValidationConfidence r)._analysis_trace = r._analysis_trace := rfl

theorem svc_rejectionReason (r : Result) :
    (setValidationConfidence r).rejectionReason = r.rejectionReason := rfl

theorem svc_warnings (r : Result) :
    (setValidationConfidence r).warnings = r.warnings := rfl

theorem svc_documentType (r : Result) :
    (setValidationConfidence r).documentType = r.documentType := rfl

theorem svc_schemaValidation (r : Result) :
    (setValidationConfidence r).schemaValidation = r.schemaValidation := rfl

theorem svc_validationConfidence (r : Result) :
    (setValidationConfidence r).validationConfidence = some (calculateConfidence r) := rfl

theorem err_isCompliant (r : Result) :
    (ensureRejectionReason r).isCompliant = r.isCompliant := by
  unfold ensureRejectionReason
  split <;> rfl

theorem err_overallScore (r : Result) :
    (ensureRejectionReason r).overallScore = r.overallScore := by
  unfold ensureRejectionReason
  split <;> rfl

theorem err_categories (r : Result) :
    (ensureRejectionReason r).categories = r.categories := by
  unfold ensureRejectionReason
  split <;> rfl

theorem err_extractedText (r : Result) :
    (ensureRejectionReason r).extractedText = r.extractedText := by
  unfold ensureRejectionReason
  split <;> rfl

theorem err_trace (r : Result) :
    (ensureRejectionReason r)._analysis_trace = r._analysis_trace := by
  unfold ensureRejectionReason
  split <;> rfl

theorem err_warnings (r : Result) : (ensureRejectionReason r).warnings = r.warnings := by
  unfold ensureRejectionReason
  split <;> rfl

theorem err_documentType (r : Result) :
    (ensureRejectionReason r).documentType = r.documentType := by
  unfold ensureRejectionReason
  split <;> rfl

theorem err_schemaValidation (r : Result) :
    (ensureRejectionReason r).schemaValidation = r.schemaValidation := by
  unfold ensureRejectionReason
  split <;> rfl

theorem err_validationConfidence (r : Result) :
    (ensureRejectionReason r).validationConfidence = r.validationConfidence := by
  unfold ensureRejectionReason
  split <;> rfl

theorem stamp_isCompliant (e : List String) (r : Result) :
    (stampMetadata e r).isCompliant = r.isCompliant := rfl

theorem stamp_overallScore (e : List String) (r : Result) :
    (stampMetadata e r).overallScore = r.overallScore := rfl

theorem stamp_categories (e : List String) (r : Result) :
    (stampMetadata e r).categories = r.categories := rfl

theorem stamp_extractedText (e : List String) (r : Result) :
    (stampMetadata e r).extractedText = r.extractedText := rfl

theorem stamp_trace (e : List String) (r : Result) :
    (stampMetadata e r)._analysis_trace = r._analysis_trace := rfl

theorem stamp_rejectionReason (e : List String) (r : Result) :
    (stampMetadata e r).rejectionReason = r.rejectionReason := rfl

theorem stamp_warnings (e : List String) (r : Result) :
    (stampMetadata e r).warnings = r.warnings := rfl

theorem stamp_documentType (e : List String) (r : Result) :
    (stampMetadata e r).documentType = r.documentType := rfl

theorem stamp_schemaValidation (e : List String) (r : Result) :
    (stampMetadata e r).schemaValidation = r.schemaValidation := rfl

theorem stamp_validationConfidence (e : List String) (r : Result) :
    (stampMetadata e r).validationConfidence = r.validationConfidence := rfl

/-- `numberWarnings` reads only `categories` and `extractedText`. -/
theorem numberWarnings_congr (r r' : Result) (hc : r.categories = r'.categories)
    (he : r.extractedText = r'.extractedText) : numberWarnings r = numberWarnings r' := by
  unfold numberWarnings prohibitedItemsOf rawTextOf
  rw [hc, he]

/-- `rawTextOf` reads only `extractedText`. -/
theorem rawTextOf_congr (r r' : Result) (he : r.extractedText = r'.extractedText) :
    rawTextOf r = rawTextOf r' := by
  unfold rawTextOf
  rw [he]

/-- `calculateConfidence` reads only the trace, `isCompliant`,
`documentType` and `categories`. -/
theorem calculateConfidence_congr (r r' : Result)
    (ht : r._analysis_trace = r'._analysis_trace) (hic : r.isCompliant = r'.isCompliant)
    (hdt : r.documentType = r'.documentType) (hc : r.categories = r'.categories) :
    calculateConfidence r = calculateConfidence r' := by
  unfold calculateConfidence getAverageItemConfidence scoredConfidences prohibitedItemsOf
    contentScopeItemsOf
  rw [ht, hic, hdt, hc]

theorem flag_trace_isSome (r : Result) (a : String) (b : List String) (c d : String) :
    (flagDeterministicViolation r a b c d)._analysis_trace.isSome = r._analysis_trace.isSome := by
  simp only [flagDeterministicViolation]
  repeat' split
  all_goals simp_all

theorem vtc_extractedText (r : Result) :
    (validateTextContent r).extractedText = r.extractedText := by
  simp only [validateTextContent]
  repeat' split
  all_goals simp [flag_extractedText]

theorem vtc_warnings (r : Result) : (validateTextContent r).warnings = r.warnings := by
  simp only [validateTextContent]
  repeat' split
  all_goals simp [flag_warnings]

theorem vtc_prohibitedItems (r : Result) :
    prohibitedItemsOf (validateTextContent r) = prohibitedItemsOf r := by
  simp only [validateTextContent]
  repeat' split
  all_goals simp [flag_prohibitedItems]

theorem vtc_documentType (r : Result) :
    (validateTextContent r).documentType = r.documentType := by
  simp only [validateTextContent]
  repeat' split
  all_goals simp [flag_documentType]

theorem vtc_validationConfidence (r : Result) :
    (validateTextContent r).validationConfidence = r.validationConfidence := by
  simp only [validateTextContent]
  repeat' split
  all_goals simp [flag_validationConfidence]

theorem vtc_schemaValidation (r : Result) :
    (validateTextContent r).schemaValidation = r.schemaValidation := by
  simp only [validateTextContent]
  repeat' split
  all_goals simp [flag_schemaValidation]

theorem vtc_trace_isSome (r : Result) :
    (validateTextContent r)._analysis_trace.isSome = r._analysis_trace.isSome := by
  simp only [validateTextContent]
  repeat' split
  all_goals simp [flag_trace_isSome]

/-- `validateTextContent` is the identity when none of the three fixed
patterns matches the raw text. -/
theorem vtc_id (r : Result)
    (h1 : jobSeekerPattern.test (rawTextOf r) = false)
    (h2 : completeServicePattern.test (rawTextOf r) = false)
    (h3 : seekObtainPattern.test (rawTextOf r) = false) :
    validateTextContent r = r := by
  simp only [validateTextContent, h1, h2, h3]
  simp

/-- `validateTextContent` never resurrects a forced non-compliance. -/
theorem vtc_noncompliant (r : Result) (h1 : r.isCompliant = some false)
    (h2 : r.overallScore = some 0) :
    (validateTextContent r).isCompliant = some false ∧
      (validateTextContent r).overallScore = some 0 := by
  simp only [validateTextContent]
  repeat' split
  all_goals simp [flag_isCompliant, flag_overallScore, h1, h2]

/-- The dedup key of `flagDeterministicViolation` for the
`OBJECTIVES_OUTSIDE_POWERS` rule with first violating text `m`. -/
def csKey (m : String) (i : ContentScopeItem) : Bool :=
  i.rule == "OBJECTIVES_OUTSIDE_POWERS" && i.violatingObjectives.head? == some m

/-- The C4 invariant on a content-scope list: exactly one item carries the
dedup key, and it is the deterministically injected one. -/
def csInv (m : String) (l : List ContentScopeItem) : Prop :=
  l.countP (csKey m) = 1 ∧
  ∀ i ∈ l, csKey m i = true →
    i.violated = true ∧ i.confidence = 100 ∧ i.violatingObjectives = [m]

theorem flag_establishes_inv (r : Result) (m c d : String)
    (h : (contentScopeItemsOf r).countP (csKey m) = 0) :
    csInv m (contentScopeItemsOf
      (flagDeterministicViolation r "OBJECTIVES_OUTSIDE_POWERS" [m] c d)) := by
  rw [flag_contentScopeItems]
  have hall : ∀ i ∈ contentScopeItemsOf r, ¬(csKey m i = true) :=
    List.countP_eq_zero.mp h
  have hany : (contentScopeItemsOf r).any (fun item =>
      item.rule == "OBJECTIVES_OUTSIDE_POWERS" &&
        item.violatingObjectives.head? == [m].head?) = false := by
    rw [List.any_eq_false]
    intro i hi
    have := hall i hi
    simpa [csKey] using this
  rw [hany]
  simp only [if_false, Bool.false_eq_true]
  constructor
  · rw [List.countP_append, h]
    simp [csKey, injectedItem]
  · intro i hi _
    rcases List.mem_append.mp hi with hi | hi
    · exact absurd (by assumption) (hall i hi)
    · have : i = injectedItem "OBJECTIVES_OUTSIDE_POWERS" [m] c := by simpa using hi
      subst this
      simp [injectedItem]

theorem flag_preserves_inv (r : Result) (m a : String) (b : List String) (c d : String)
    (h : csInv m (contentScopeItemsOf r)) :
    csInv m (contentScopeItemsOf (flagDeterministicViolation r a b c d)) := by
  obtain ⟨h1, h2⟩ := h
  rw [flag_contentScopeItems]
  split
  · exact ⟨h1, h2⟩
  · rename_i hdup
    have hkey : csKey m (injectedItem a b c) = false := by
      by_contra hk
      rw [Bool.not_eq_false] at hk
      obtain ⟨i0, hi0, hki0⟩ := List.countP_pos.mp (by omega : 0 < (contentScopeItemsOf r).countP (csKey m))
      apply hdup
      rw [List.any_eq_true]
      refine ⟨i0, hi0, ?_⟩
      simp only [csKey, injectedItem, Bool.and_eq_true, beq_iff_eq] at hk hki0
      simp [hki0.1, hki0.2, hk.1, hk.2]
    constructor
    · rw [List.countP_append, h1]
      simp [hkey]
    · intro i hi hk
      rcases List.mem_append.mp hi with hi | hi
      · exact h2 i hi hk
      · have : i = injectedItem a b c := by simpa using hi
        subst this
        rw [hk] at hkey
        cases hkey

theorem vtc_preserves_inv (r : Result) (m : String)
    (h : csInv m (contentScopeItemsOf r)) :
    csInv m (contentScopeItemsOf (validateTextContent r)) := by
  simp only [validateTextContent]
  repeat' split
  all_goals repeat' apply flag_preserves_inv
  all_goals exact h

theorem rejectionFromProhibited_ne (l : List ProhibitedItem) (msg : String)
    (h : rejectionFromProhibited l = some msg) : msg ≠ "" := by
  simp only [rejectionFromProhibited] at h
  repeat' split at h
  all_goals first
    | (cases h; decide)
    | simp_all

theorem rejectionFromScope_ne (l : List ContentScopeItem) (msg : String)
    (h : rejectionFromScope l = some msg) : msg ≠ "" := by
  simp only [rejectionFromScope] at h
  repeat' split at h
  all_goals first
    | (cases h; decide)
    | simp_all

theorem rejectionFromRequired_ne (l : List RequiredItem) (msg : String)
    (h : rejectionFromRequired l = some msg) : msg ≠ "" := by
  simp only [rejectionFromRequired] at h
  repeat' split at h
  all_goals first
    | (cases h; decide)
    | simp_all

theorem generateRejectionReasonRest_ne (r : Result) :
    generateRejectionReasonRest r ≠ "" := by
  intro h
  unfold generateRejectionReasonRest at h
  repeat' split at h
  all_goals first
    | simp at h
    | exact rejectionFromProhibited_ne _ _ (by assumption) h
    | exact rejectionFromScope_ne _ _ (by assumption) h
    | exact rejectionFromRequired_ne _ _ (by assumption) h

theorem typeMapLookup_ne (t : String) : typeMapLookup t ≠ "" := by
  unfold typeMapLookup
  repeat' split
  all_goals simp

/-- `generateRejectionReason` always produces a non-empty string. -/
theorem generateRejectionReason_ne (r : Result) : generateRejectionReason r ≠ "" := by
  intro hcontra
  unfold generateRejectionReason at hcontra
  repeat' split at hcontra
  all_goals first
    | exact generateRejectionReasonRest_ne r hcontra
    | exact typeMapLookup_ne _ hcontra

theorem clamp_bounds (x : Int) : 50 ≤ max 50 (min 100 x) ∧ max 50 (min 100 x) ≤ 100 :=
  ⟨le_max_left _ _, max_le (by norm_num) (min_le_left _ _)⟩

theorem calculateConfidence_bounds (r : Result) :
    50 ≤ calculateConfidence r ∧ calculateConfidence r ≤ 100 := by
  unfold calculateConfidence
  exact clamp_bounds _

theorem length_pos_ne_empty (s : String) (h : 20 < s.length) : s ≠ "" := by
  intro he
  subst he
  exact absurd h (by decide)

set_option maxHeartbeats 1600000 in
theorem calculateConfidence_eq_spec (r : Result) :
    calculateConfidence r = confidenceSpec r := by
  unfold calculateConfidence confidenceSpec
  cases hdt : r.documentType with
  | none =>
    have h0 : ((Option.map (fun x => x.reasoning.length) (none : Option DocumentType)).getD 0) = 0 := rfl
    rw [h0]
    dsimp only
    split_ifs <;> first | decide | omega | tauto | simp_all
  | some dt =>
    have h0 : ((Option.map (fun x => x.reasoning.length) (some dt)).getD 0) = dt.reasoning.length := rfl
    rw [h0]
    have hc3 : (dt.reasoning ≠ "" ∧ dt.reasoning.length > 20) ↔ 20 < dt.reasoning.length := by
      constructor
      · exact fun h => h.2
      · exact fun h => ⟨length_pos_ne_empty _ h, h⟩
    dsimp only
    simp only [hc3]
    split_ifs <;> first | decide | omega | tauto | simp_all

/-- C7: `validationConfidence` is computed by the documented formula —
base 90, minus 20 for a missing or placeholder step-1 extraction, minus 10
for a non-compliant result whose trace violations list is empty, plus 5
for a document-type reasoning longer than 20 characters, minus 10 for a
mean item confidence below 70, clamped to [50, 100] — and hence the
reconciled `validationConfidence` always lies within [50, 100]. -/
theorem c7_confidence_formula_and_bounds :
    (∀ r : Result, calculateConfidence r = confidenceSpec r) ∧
    (∀ r : Result, ∃ c : Int, (validateAndEnrichResult r).validationConfidence = some c ∧
      50 ≤ c ∧ c ≤ 100) := by
  constructor
  · exact calculateConfidence_eq_spec
  · intro r
    simp only [validateAndEnrichResult]
    rw [stamp_validationConfidence, err_validationConfidence, svc_validationConfidence]
    exact ⟨_, rfl, (calculateConfidence_bounds _).1, (calculateConfidence_bounds _).2⟩

/-- C10: items with absent (modelled as 0) or zero `confidence` are never
collected into the scored-confidence list; when nothing contributes the
average defaults to 85, so the below-70 deduction cannot apply to a result
with no scored items. -/
theorem c10_zero_confidence_excluded :
    (∀ r : Result, ∀ c ∈ scoredConfidences r, c ≠ 0) ∧
    (∀ r : Result, scoredConfidences r = [] →
      getAverageItemConfidence r = 85 ∧ ¬(getAverageItemConfidence r < 70)) := by
  constructor
  · intro r c hc
    unfold scoredConfidences at hc
    rcases List.mem_append.mp hc with h | h <;>
    · obtain ⟨i, _, hi⟩ := List.mem_filterMap.mp h
      by_cases hzi : i.confidence = 0 <;> simp [hzi] at hi
      omega
  · intro r h
    unfold getAverageItemConfidence
    rw [h]
    norm_num

theorem strOptFalsy_false (o : Option String) (h : strOptFalsy o = false) :
    ∃ s, o = some s ∧ s ≠ "" := by
  cases o with
  | none => simp [strOptFalsy] at h
  | some s =>
    refine ⟨s, rfl, ?_⟩
    simp [strOptFalsy] at h
    exact h

theorem err_rejectionReason_spec (x : Result) :
    (ensureRejectionReason x).rejectionReason =
      if !(jsTruthy x.isCompliant) && strOptFalsy x.rejectionReason
      then some (generateRejectionReason x) else x.rejectionReason := by
  unfold ensureRejectionReason
  split <;> simp_all

/-- C6: whenever the reconciled result is non-compliant, its
`rejectionReason` is present and non-empty — either the model's own
non-empty reason survives or `generateRejectionReason` synthesizes one. -/
theorem c6_noncompliant_has_reason (r : Result)
    (h : (validateAndEnrichResult r).isCompliant = some false) :
    ∃ s, (validateAndEnrichResult r).rejectionReason = some s ∧ s ≠ "" := by
  simp only [validateAndEnrichResult] at h ⊢
  rw [stamp_isCompliant, err_isCompliant] at h
  rw [stamp_rejectionReason, err_rejectionReason_spec]
  rw [h]
  have hcond : ∀ b : Bool, (!(jsTruthy (some false)) && b) = b := fun b => rfl
  rw [hcond]
  cases hf : strOptFalsy (setValidationConfidence (validateTextContent (validateNumberDetection
      (ensureTrace (fixNonElectionLogic (attachSchemaValidation r)))))).rejectionReason with
  | true =>
    refine ⟨generateRejectionReason (setValidationConfidence (validateTextContent
      (validateNumberDetection (ensureTrace (fixNonElectionLogic (attachSchemaValidation r)))))),
      by simp, generateRejectionReason_ne _⟩
  | false =>
    rw [if_neg (by simp)]
    exact strOptFalsy_false _ hf

/-- Input for the C6 witness: a minimal raw result the model marked
non-compliant without giving a reason. -/
def w6 : Result := { isCompliant := some false }

theorem c6_witness :
    (validateAndEnrichResult w6).isCompliant = some false ∧
    ∃ s, (validateAndEnrichResult w6).rejectionReason = some s ∧ s ≠ "" :=
  ⟨by decide, c6_noncompliant_has_reason w6 (by decide)⟩

/-- C1 (amended): when the model marks a non-election document compliant,
reconciliation forces `isCompliant = false` and `overallScore = 0`. -/
theorem c1_nonelection_forced_noncompliant (r : Result) (dt : DocumentType)
    (hdt : r.documentType = some dt)
    (hep : dt.isElectionPropaganda = some false)
    (hic : r.isCompliant = some true) :
    (validateAndEnrichResult r).isCompliant = some false ∧
      (validateAndEnrichResult r).overallScore = some 0 := by
  simp only [validateAndEnrichResult]
  rw [stamp_isCompliant, stamp_overallScore, err_isCompliant, err_overallScore,
      svc_isCompliant, svc_overallScore]
  have h2 := fnel_forces (attachSchemaValidation r) dt
    (by rw [asv_documentType, hdt]) hep (by rw [asv_isCompliant, hic])
  have h3 : (ensureTrace (fixNonElectionLogic (attachSchemaValidation r))).isCompliant =
      some false := by rw [et_isCompliant]; exact h2.1
  have h4 : (ensureTrace (fixNonElectionLogic (attachSchemaValidation r))).overallScore =
      some 0 := by rw [et_overallScore]; exact h2.2
  have h5 : (validateNumberDetection (ensureTrace (fixNonElectionLogic
      (attachSchemaValidation r)))).isCompliant = some false := by
    rw [vnd_isCompliant]; exact h3
  have h6 : (validateNumberDetection (ensureTrace (fixNonElectionLogic
      (attachSchemaValidation r)))).overallScore = some 0 := by
    rw [vnd_overallScore]; exact h4
  exact vtc_noncompliant _ h5 h6

/-- The document-type object of the non-election test inputs. -/
def trainingDt : DocumentType :=
  { isElectionPropaganda := some false, actualType := "training_ad",
    confidence := 90, reasoning := "clearly a training advertisement" }

/-- A complete categories object with empty item lists. -/
def emptyCats : Categories :=
  { prohibitedContent := some {}, requiredContent := some {},
    contentScope := some {}, languageEthics := some {} }

/-- A well-formed analysis trace used by the test inputs. -/
def sampleTrace : AnalysisTrace :=
  { step1_content_extraction := "found text",
    step2_document_type := "NOT election propaganda - training_ad",
    step3_violations_found := [], step4_decision_logic := "reject" }

/-- Counterexample input for C1: non-election raw result that the model
already marked non-compliant, but with a non-zero `overallScore`. -/
def cexC1input : Result :=
  { isCompliant := some false, overallScore := some 85, summary := "s",
    rejectionReason := some "model-provided reason",
    documentType := some trainingDt, categories := some emptyCats,
    extractedText := some { rawText := "" },
    _analysis_trace := some sampleTrace }

/-- C1 as stated is false: `documentType.isElectionPropaganda == false`
does not force `overallScore = 0` when the raw result was already marked
non-compliant — `fixNonElectionLogic` only fires on `isCompliant === true`,
so the score 85 survives reconciliation. -/
theorem c1_counterexample :
    cexC1input.documentType.bind (·.isElectionPropaganda) = some false ∧
    (validateAndEnrichResult cexC1input).overallScore = some 85 ∧
    ¬((validateAndEnrichResult cexC1input).overallScore = some 0) := by
  refine ⟨rfl, by decide, by decide⟩

/-- Witness input for the amended C1: the buggy model output of the spec's
scenario (non-election document marked compliant). -/
def w1 : Result :=
  { isCompliant := some true, overallScore := some 88, summary := "s",
    documentType := some trainingDt, categories := some emptyCats,
    extractedText := some { rawText := "" },
    _analysis_trace := some sampleTrace }

theorem c1_witness :
    w1.documentType = some trainingDt ∧
    trainingDt.isElectionPropaganda = some false ∧
    w1.isCompliant = some true ∧
    (validateAndEnrichResult w1).isCompliant = some false ∧
    (validateAndEnrichResult w1).overallScore = some 0 :=
  ⟨rfl, rfl, rfl,
   (c1_nonelection_forced_noncompliant w1 trainingDt rfl rfl rfl).1,
   (c1_nonelection_forced_noncompliant w1 trainingDt rfl rfl rfl).2⟩

/-- The C3 scenario input: the spec's buggy model output —
`isElectionPropaganda=false`, `actualType="training_ad"`,
`isCompliant=true`. -/
def c3input : Result :=
  { isCompliant := some true, overallScore := some 88, summary := "s",
    documentType := some trainingDt, categories := some emptyCats,
    extractedText := some { rawText := "" },
    _analysis_trace := some sampleTrace }

/-- C3 evaluated on the code: reconciliation forces non-compliance, zero
score and the training-ad rejection reason, but the final metadata
stamping (`result.metadata = {...}` in `validateAndEnrichResult`) replaces
the metadata object written by `fixNonElectionLogic`, so
`metadata.logicCorrectionApplied` is absent from the returned result —
contradicting the claim (and the intent of `fixNonElectionLogic`, which
carefully merges into the existing metadata). -/
theorem c3_metadata_flag_lost :
    (validateAndEnrichResult c3input).isCompliant = some false ∧
    (validateAndEnrichResult c3input).overallScore = some 0 ∧
    (validateAndEnrichResult c3input).rejectionReason =
      some "The request is an advertisement for a training course and not an election advertisement for the candidate" ∧
    (validateAndEnrichResult c3input).metadata.bind (·.logicCorrectionApplied) = none ∧
    (fixNonElectionLogic c3input).metadata.bind (·.logicCorrectionApplied) = some true :=
  ⟨by decide, by decide, by decide, by decide, by decide⟩

/-- C9 (amended): a non-empty error list is attached as
`schemaValidation.valid = false` with that list; an empty error list
leaves `schemaValidation` untouched (no `valid = true` object is ever
attached). -/
theorem c9_schema_validation_attachment (r : Result) :
    (validateAndEnrichResult r).schemaValidation =
      (if validateSchema r = [] then r.schemaValidation
       else some { valid := false, errors := validateSchema r }) := by
  simp only [validateAndEnrichResult]
  rw [stamp_schemaValidation, err_schemaValidation, svc_schemaValidation, vtc_schemaValidation,
      vnd_schemaValidation, et_schemaValidation, fnel_schemaValidation]
  unfold attachSchemaValidation
  split <;> simp_all

/-- A schema-complete raw result (used to refute the `valid = true` part
of C9). -/
def c9valid : Result :=
  { isCompliant := some true, overallScore := some 90, summary := "ok",
    documentType := some { isElectionPropaganda := some true, actualType := "election_poster",
                           confidence := 95, reasoning := "r" },
    categories := some emptyCats,
    extractedText := some { rawText := "" },
    _analysis_trace := some sampleTrace }

/-- C9's "otherwise it carries `schemaValidation.valid == true`" is false:
on a schema-complete result the reconciler attaches nothing at all. -/
theorem c9_counterexample :
    validateSchema c9valid = [] ∧
    (validateAndEnrichResult c9valid).schemaValidation = none :=
  ⟨by decide, by decide⟩

theorem isPrefixOf_self {α : Type} [BEq α] [LawfulBEq α] (l : List α) :
    l.isPrefixOf l = true := by
  induction l with
  | nil => rfl
  | cons c cs ih => simp [List.isPrefixOf, ih]

/-- Appending makes the suffix a JavaScript-`includes` substring. -/
theorem containsSub_append_self (a b : String) : containsSub (a ++ b) b = true := by
  unfold containsSub
  rw [List.any_eq_true]
  refine ⟨b.data, ?_, isPrefixOf_self _⟩
  rw [List.mem_tails]
  have hd : (a ++ b).data = a.data ++ b.data := by
    cases a
    cases b
    rfl
  rw [hd]
  exact List.suffix_append _ _

/-- C5 (amended): `ValidationService.validatePoster` converts every
upstream failure into the synthetic non-compliant result (error-bearing
`rejectionReason`, placeholder trace) and reconciles every success; the
`POST /api/validate` route of `app.js`, however, propagates upstream
faults unchanged (see `c5_counterexample`). -/
theorem c5_validate_poster_catches :
    (∀ e : String,
      (validatePoster (.error e)).isCompliant = some false ∧
      (validatePoster (.error e)).overallScore = some 0 ∧
      (validatePoster (.error e)).rejectionReason = some ("Technical error: " ++ e) ∧
      containsSub ("Technical error: " ++ e) e = true ∧
      (validatePoster (.error e))._analysis_trace =
        some { step1_content_extraction := "Error occurred",
               step2_document_type := "Could not analyze",
               step3_violations_found := [], step4_decision_logic := "System error" }) ∧
    (∀ r : Result, validatePoster (.ok r) = validateAndEnrichResult r) :=
  ⟨fun e => ⟨rfl, rfl, rfl, containsSub_append_self "Technical error: " e, rfl⟩,
   fun _ => rfl⟩

/-- C5's "no fault is ever propagated to the HTTP caller" is false: the
`app.js` route awaits OCR, model call and `JSON.parse` with no
`try`/`catch`, so an upstream error surfaces as a fault instead of a JSON
body. -/
theorem c5_counterexample :
    postValidateHandler (.ok "ocr text") (fun _ => .error "upstream timeout")
      (fun _ => .error "unreachable parse") = .error "upstream timeout" := rfl

theorem prohibitedItemsOf_congr (r r' : Result) (h : r.categories = r'.categories) :
    prohibitedItemsOf r = prohibitedItemsOf r' := by
  unfold prohibitedItemsOf
  rw [h]

/-- The exact warnings pushed when a `CANDIDATE_NUMBER` violation has an
8+-digit run in the raw text and the candidate-number phrase is absent. -/
theorem numberWarnings_spec (r : Result) (item : ProhibitedItem)
    (hfind : (prohibitedItemsOf r).find? (fun i => i.rule == "CANDIDATE_NUMBER") = some item)
    (hfound : item.found = true)
    (hdig : phonePattern.test (jsToLower (rawTextOf r)) = true)
    (hctx : candidateContextPattern.test (jsToLower (rawTextOf r)) = false) :
    numberWarnings r =
      [{ type := "POSSIBLE_FALSE_POSITIVE", rule := "CANDIDATE_NUMBER",
         message := "Number detection may be false positive (phone/date/age). Verify context.",
         details := some item.details, confidence := 60 },
       { type := "MISSING_CONTEXT", rule := "CANDIDATE_NUMBER",
         message := "Number flagged but missing \"رقم المرشح\" context. May be phone/date/age.",
         confidence := 70 }] := by
  unfold numberWarnings
  rw [hfind]
  have hany : falsePositivePatterns.any
      (fun p => p.test (jsToLower item.details) || p.test (jsToLower (rawTextOf r))) = true := by
    rw [List.any_eq_true]
    refine ⟨phonePattern, by simp [falsePositivePatterns], ?_⟩
    rw [hdig]
    simp
  simp [hfound, hany, hctx]

/-- Reconciliation appends exactly the number-detection warnings to the
raw result's warnings. -/
theorem vaer_warnings (r : Result) :
    (validateAndEnrichResult r).warnings = r.warnings ++ numberWarnings r := by
  simp only [validateAndEnrichResult]
  rw [stamp_warnings, err_warnings, svc_warnings, vtc_warnings, vnd_warnings,
      et_warnings, fnel_warnings, asv_warnings]
  congr 1
  apply numberWarnings_congr
  · rw [et_categories, fnel_categories, asv_categories]
  · rw [et_extractedText, fnel_extractedText, asv_extractedText]

/-- Reconciliation never changes the prohibited-content items. -/
theorem vaer_prohibitedItems (r : Result) :
    prohibitedItemsOf (validateAndEnrichResult r) = prohibitedItemsOf r := by
  simp only [validateAndEnrichResult]
  rw [prohibitedItemsOf_congr _ _ (stamp_categories _ _),
      prohibitedItemsOf_congr _ _ (err_categories _),
      prohibitedItemsOf_congr _ _ (svc_categories _),
      vtc_prohibitedItems,
      prohibitedItemsOf_congr _ _ (vnd_categories _),
      prohibitedItemsOf_congr _ _ (et_categories _),
      prohibitedItemsOf_congr _ _ (fnel_categories _),
      prohibitedItemsOf_congr _ _ (asv_categories _)]

/-- C8: with an 8+ digit run in the raw text, a `CANDIDATE_NUMBER` item
with `found = true`, and no candidate-number phrase, reconciliation
appends both the `POSSIBLE_FALSE_POSITIVE` (confidence 60) and the
`MISSING_CONTEXT` (confidence 70) warning, and leaves the prohibited
content items (hence the violation item itself) untouched. -/
theorem c8_false_positive_warnings (r : Result) (item : ProhibitedItem)
    (hfind : (prohibitedItemsOf r).find? (fun i => i.rule == "CANDIDATE_NUMBER") = some item)
    (hfound : item.found = true)
    (hdig : phonePattern.test (jsToLower (rawTextOf r)) = true)
    (hctx : candidateContextPattern.test (jsToLower (rawTextOf r)) = false) :
    (validateAndEnrichResult r).warnings = r.warnings ++
      [{ type := "POSSIBLE_FALSE_POSITIVE", rule := "CANDIDATE_NUMBER",
         message := "Number detection may be false positive (phone/date/age). Verify context.",
         details := some item.details, confidence := 60 },
       { type := "MISSING_CONTEXT", rule := "CANDIDATE_NUMBER",
         message := "Number flagged but missing \"رقم المرشح\" context. May be phone/date/age.",
         confidence := 70 }] ∧
    prohibitedItemsOf (validateAndEnrichResult r) = prohibitedItemsOf r := by
  rw [vaer_warnings, numberWarnings_spec r item hfind hfound hdig hctx]
  exact ⟨rfl, vaer_prohibitedItems r⟩

/-- The flagged `CANDIDATE_NUMBER` item of the C8 witness input. -/
def c8item : ProhibitedItem :=
  { rule := "CANDIDATE_NUMBER", found := true, confidence := 90,
    details := "standalone number 12345678", location := "center" }

/-- Witness input for C8: contact number in the text, no candidate-number
phrase, model flagged a violation anyway. -/
def c8w : Result :=
  { isCompliant := some false, overallScore := some 40, summary := "s",
    rejectionReason := some "Please remove the candidate number",
    documentType := some { isElectionPropaganda := some true,
                           actualType := "election_poster",
                           confidence := 90, reasoning := "poster with details" },
    categories := some { prohibitedContent := some { status := "fail", items := [c8item] },
                         requiredContent := some {}, contentScope := some {},
                         languageEthics := some {} },
    extractedText := some { rawText := "12345678" },
    _analysis_trace := some sampleTrace }

theorem c8_witness :
    (prohibitedItemsOf c8w).find? (fun i => i.rule == "CANDIDATE_NUMBER") = some c8item ∧
    phonePattern.test (jsToLower (rawTextOf c8w)) = true ∧
    candidateContextPattern.test (jsToLower (rawTextOf c8w)) = false ∧
    (validateAndEnrichResult c8w).warnings = c8w.warnings ++
      [{ type := "POSSIBLE_FALSE_POSITIVE", rule := "CANDIDATE_NUMBER",
         message := "Number detection may be false positive (phone/date/age). Verify context.",
         details := some c8item.details, confidence := 60 },
       { type := "MISSING_CONTEXT", rule := "CANDIDATE_NUMBER",
         message := "Number flagged but missing \"رقم المرشح\" context. May be phone/date/age.",
         confidence := 70 }] ∧
    prohibitedItemsOf (validateAndEnrichResult c8w) = prohibitedItemsOf c8w :=
  ⟨by decide, by decide, by decide,
   (c8_false_positive_warnings c8w c8item (by decide) (by decide) (by decide) (by decide)).1,
   (c8_false_positive_warnings c8w c8item (by decide) (by decide) (by decide) (by decide)).2⟩

theorem contentScopeItemsOf_congr (r r' : Result) (h : r.categories = r'.categories) :
    contentScopeItemsOf r = contentScopeItemsOf r' := by
  unfold contentScopeItemsOf
  rw [h]

set_option maxHeartbeats 3200000 in
/-- `validateTextContent` on a job-seeker match: establishes the dedup
invariant and forces non-compliance. -/
theorem vtc_injects (r : Result) (m : String)
    (hmatch : jobSeekerPattern.test (rawTextOf r) = true)
    (hm : (jobSeekerPattern.firstMatch (rawTextOf r)).getD "" = m)
    (h0 : (contentScopeItemsOf r).countP (csKey m) = 0) :
    csInv m (contentScopeItemsOf (validateTextContent r)) ∧
    (validateTextContent r).isCompliant = some false ∧
    (validateTextContent r).overallScore = some 0 := by
  simp only [validateTextContent, hmatch, hm, if_true]
  repeat' split
  all_goals refine ⟨?_, flag_isCompliant _ _ _ _ _, flag_overallScore _ _ _ _ _⟩
  all_goals repeat' first
    | exact flag_establishes_inv r m _ _ h0
    | apply flag_preserves_inv

/-- The C4 dedup invariant survives a whole reconciliation pass. -/
theorem vaer_csInv_preserved (x : Result) (m : String)
    (h : csInv m (contentScopeItemsOf x)) :
    csInv m (contentScopeItemsOf (validateAndEnrichResult x)) := by
  simp only [validateAndEnrichResult]
  rw [contentScopeItemsOf_congr _ _ (stamp_categories _ _),
      contentScopeItemsOf_congr _ _ (err_categories _),
      contentScopeItemsOf_congr _ _ (svc_categories _)]
  apply vtc_preserves_inv
  rw [contentScopeItemsOf_congr _ _ (vnd_categories _),
      contentScopeItemsOf_congr _ _ (et_categories _),
      contentScopeItemsOf_congr _ _ (fnel_categories _),
      contentScopeItemsOf_congr _ _ (asv_categories _)]
  exact h

/-- C4 (amended): when the job-seeker phrase matches and the raw result
carries no content-scope item with the dedup key (rule
`OBJECTIVES_OUTSIDE_POWERS` and the matched phrase as first violating
text), reconciliation forces `isCompliant = false`, `overallScore = 0`,
and yields exactly one key-matching item — injected with `violated = true`,
`confidence = 100` and the matched phrase (`csInv`) — and a second
reconciliation pass still has exactly one. -/
theorem c4_deterministic_injection (r : Result) (m : String)
    (hmatch : jobSeekerPattern.test (rawTextOf r) = true)
    (hm : (jobSeekerPattern.firstMatch (rawTextOf r)).getD "" = m)
    (h0 : (contentScopeItemsOf r).countP (csKey m) = 0) :
    (validateAndEnrichResult r).isCompliant = some false ∧
    (validateAndEnrichResult r).overallScore = some 0 ∧
    csInv m (contentScopeItemsOf (validateAndEnrichResult r)) ∧
    csInv m (contentScopeItemsOf (validateAndEnrichResult (validateAndEnrichResult r))) := by
  have hraw : rawTextOf (validateNumberDetection (ensureTrace (fixNonElectionLogic
      (attachSchemaValidation r)))) = rawTextOf r :=
    rawTextOf_congr _ _
      (by rw [vnd_extractedText, et_extractedText, fnel_extractedText, asv_extractedText])
  have hcs : contentScopeItemsOf (validateNumberDetection (ensureTrace (fixNonElectionLogic
      (attachSchemaValidation r)))) = contentScopeItemsOf r :=
    contentScopeItemsOf_congr _ _
      (by rw [vnd_categories, et_categories, fnel_categories, asv_categories])
  have hstep := vtc_injects (validateNumberDetection (ensureTrace (fixNonElectionLogic
      (attachSchemaValidation r)))) m
    (by rw [hraw]; exact hmatch) (by rw [hraw]; exact hm) (by rw [hcs]; exact h0)
  have hRinv : csInv m (contentScopeItemsOf (validateAndEnrichResult r)) := by
    simp only [validateAndEnrichResult]
    rw [contentScopeItemsOf_congr _ _ (stamp_categories _ _),
        contentScopeItemsOf_congr _ _ (err_categories _),
        contentScopeItemsOf_congr _ _ (svc_categories _)]
    exact hstep.1
  refine ⟨?_, ?_, hRinv, vaer_csInv_preserved _ m hRinv⟩
  · simp only [validateAndEnrichResult]
    rw [stamp_isCompliant, err_isCompliant, svc_isCompliant]
    exact hstep.2.1
  · simp only [validateAndEnrichResult]
    rw [stamp_overallScore, err_overallScore, svc_overallScore]
    exact hstep.2.2

/-- Counterexample input for C4: the model already produced an
`OBJECTIVES_OUTSIDE_POWERS` item for the same phrase, but hedged
(`violated = false`, confidence 40). -/
def cexC4input : Result :=
  { isCompliant := some true, overallScore := some 90, summary := "s",
    documentType := some { isElectionPropaganda := some true,
                           actualType := "election_poster",
                           confidence := 90, reasoning := "poster with details" },
    categories := some { prohibitedContent := some {}, requiredContent := some {},
                         contentScope := some { status := "pass", items :=
                           [{ rule := "OBJECTIVES_OUTSIDE_POWERS", violated := false,
                              confidence := 40,
                              violatingObjectives := ["ملف الباحثين"],
                              explanation := "model hedge" }] },
                         languageEthics := some {} },
    extractedText := some { rawText := "ملف الباحثين" },
    _analysis_trace := some sampleTrace }

/-- C4 as stated is false: the dedup key (rule + first violating text)
also matches the model's hedged item, so the `confidence = 100` item is
never inserted — after reconciliation no content-scope item with
`violated = true` and `confidence = 100` for the matched phrase exists. -/
theorem c4_counterexample :
    jobSeekerPattern.test (rawTextOf cexC4input) = true ∧
    jobSeekerPattern.firstMatch (rawTextOf cexC4input) = some "ملف الباحثين" ∧
    (contentScopeItemsOf (validateAndEnrichResult cexC4input)).countP
      (fun i => i.rule == "OBJECTIVES_OUTSIDE_POWERS" && i.violated &&
        i.confidence == 100 && i.violatingObjectives.head? == some "ملف الباحثين") = 0 :=
  ⟨by decide, by decide, by decide⟩

/-- Witness input for the amended C4: same raw text, but no pre-existing
content-scope item. -/
def c4w : Result :=
  { isCompliant := some true, overallScore := some 90, summary := "s",
    documentType := some { isElectionPropaganda := some true,
                           actualType := "election_poster",
                           confidence := 90, reasoning := "poster with details" },
    categories := some emptyCats,
    extractedText := some { rawText := "ملف الباحثين" },
    _analysis_trace := some sampleTrace }

theorem c4_witness :
    jobSeekerPattern.test (rawTextOf c4w) = true ∧
    (jobSeekerPattern.firstMatch (rawTextOf c4w)).getD "" = "ملف الباحثين" ∧
    (contentScopeItemsOf c4w).countP (csKey "ملف الباحثين") = 0 ∧
    (validateAndEnrichResult c4w).isCompliant = some false ∧
    (validateAndEnrichResult c4w).overallScore = some 0 ∧
    csInv "ملف الباحثين" (contentScopeItemsOf (validateAndEnrichResult c4w)) ∧
    csInv "ملف الباحثين"
      (contentScopeItemsOf (validateAndEnrichResult (validateAndEnrichResult c4w))) := by
  have h := c4_deterministic_injection c4w "ملف الباحثين" (by decide) (by decide) (by decide)
  exact ⟨by decide, by decide, by decide, h.1, h.2.1, h.2.2.1, h.2.2.2⟩

theorem et_summary (r : Result) : (ensureTrace r).summary = r.summary := by
  unfold ensureTrace
  split <;> rfl

theorem err_summary (r : Result) : (ensureRejectionReason r).summary = r.summary := by
  unfold ensureRejectionReason
  split <;> rfl

theorem svc_summary (r : Result) : (setValidationConfidence r).summary = r.summary := rfl

theorem stamp_summary (e : List String) (r : Result) :
    (stampMetadata e r).summary = r.summary := rfl

theorem fnel_isCompliant_isNone (r : Result) :
    (fixNonElectionLogic r).isCompliant.isNone = r.isCompliant.isNone := by
  simp only [fixNonElectionLogic]
  repeat' split
  all_goals simp_all

theorem fnel_overallScore_isNone (r : Result) :
    (fixNonElectionLogic r).overallScore.isNone = false ∨
      (fixNonElectionLogic r).overallScore = r.overallScore := by
  simp only [fixNonElectionLogic]
  repeat' split
  all_goals simp_all

/-- `validateSchema` reads only these observations of the result. -/
theorem validateSchema_congr (r r' : Result)
    (h1 : r.isCompliant.isNone = r'.isCompliant.isNone)
    (h2 : r.overallScore.isNone = r'.overallScore.isNone)
    (h3 : r.summary = r'.summary)
    (h4 : r.documentType = r'.documentType)
    (h5 : r.categories = r'.categories)
    (h6 : r.extractedText.isNone = r'.extractedText.isNone) :
    validateSchema r = validateSchema r' := by
  unfold validateSchema
  rw [h1, h2, h3, h4, h5, h6]

theorem validateSchema_nil_facts (r : Result) (h : validateSchema r = []) :
    r.isCompliant.isNone = false ∧ r.overallScore.isNone = false := by
  unfold validateSchema at h
  by_cases h1 : r.isCompliant.isNone <;> by_cases h2 : r.overallScore.isNone <;>
    simp [h1, h2] at h ⊢

/-- `fixNonElectionLogic` is the identity unless a non-election document
was marked compliant. -/
theorem fnel_id (r : Result)
    (h : ∀ dt, r.documentType = some dt → dt.isElectionPropaganda = some false →
      r.isCompliant ≠ some true) :
    fixNonElectionLogic r = r := by
  cases hdt : r.documentType with
  | none => simp only [fixNonElectionLogic, hdt]
  | some dt =>
    simp only [fixNonElectionLogic, hdt]
    by_cases hep : dt.isElectionPropaganda = some false
    · rw [if_pos hep]
      rw [if_neg (h dt hdt hep)]
    · rw [if_neg hep]

theorem svc_id (r : Result) (h : r.validationConfidence = some (calculateConfidence r)) :
    setValidationConfidence r = r := by
  unfold setValidationConfidence
  rw [← h]

theorem err_id (r : Result)
    (h : (!(jsTruthy r.isCompliant) && strOptFalsy r.rejectionReason) = false) :
    ensureRejectionReason r = r := by
  unfold ensureRejectionReason
  simp [h]

theorem stamp_metadata (e : List String) (r : Result) :
    (stampMetadata e r).metadata = some
      { modelUsed := some "qwen3-vl-plus",
        hasAnalysisTrace :=
          some (((r._analysis_trace.map (·.step1_content_extraction)).getD "") ≠ ""),
        schemaValid := some (e = []) } := rfl

theorem stamp_id (e : List String) (r : Result)
    (h : r.metadata = (stampMetadata e r).metadata) : stampMetadata e r = r := by
  unfold stampMetadata at h ⊢
  dsimp only at h
  rw [← h]

/-- C2 (amended): reconciliation is idempotent on raw results whose schema
check passes, whose number-detection warnings do not fire, and whose raw
text matches none of the three deterministic patterns.  (In general a
second pass re-appends the number warnings and the enforcement note — see
`c2_counterexample`.) -/
theorem c2_idempotent_when_stable (r : Result)
    (h1 : validateSchema r = [])
    (h2 : numberWarnings r = [])
    (h3 : jobSeekerPattern.test (rawTextOf r) = false)
    (h4 : completeServicePattern.test (rawTextOf r) = false)
    (h5 : seekObtainPattern.test (rawTextOf r) = false) :
    validateAndEnrichResult (validateAndEnrichResult r) = validateAndEnrichResult r := by
  have hBcat : (ensureTrace (fixNonElectionLogic r)).categories = r.categories := by
    rw [et_categories, fnel_categories]
  have hBext : (ensureTrace (fixNonElectionLogic r)).extractedText = r.extractedText := by
    rw [et_extractedText, fnel_extractedText]
  have hBraw : rawTextOf (ensureTrace (fixNonElectionLogic r)) = rawTextOf r :=
    rawTextOf_congr _ _ hBext
  have hBwarn : numberWarnings (ensureTrace (fixNonElectionLogic r)) = [] := by
    rw [numberWarnings_congr _ r hBcat hBext]
    exact h2
  have hR : validateAndEnrichResult r =
      stampMetadata (validateSchema r)
        (ensureRejectionReason (setValidationConfidence
          (ensureTrace (fixNonElectionLogic r)))) := by
    simp only [validateAndEnrichResult]
    rw [asv_id r h1, vnd_id _ hBwarn,
        vtc_id _ (by rw [hBraw]; exact h3) (by rw [hBraw]; exact h4) (by rw [hBraw]; exact h5)]
  have hSicB : (stampMetadata (validateSchema r) (ensureRejectionReason (setValidationConfidence
      (ensureTrace (fixNonElectionLogic r))))).isCompliant =
      (ensureTrace (fixNonElectionLogic r)).isCompliant := by
    rw [stamp_isCompliant, err_isCompliant, svc_isCompliant]
  have hSic : (stampMetadata (validateSchema r) (ensureRejectionReason (setValidationConfidence
      (ensureTrace (fixNonElectionLogic r))))).isCompliant =
      (fixNonElectionLogic r).isCompliant := by
    rw [hSicB, et_isCompliant]
  have hSova : (stampMetadata (validateSchema r) (ensureRejectionReason (setValidationConfidence
      (ensureTrace (fixNonElectionLogic r))))).overallScore =
      (fixNonElectionLogic r).overallScore := by
    rw [stamp_overallScore, err_overallScore, svc_overallScore, et_overallScore]
  have hSsum : (stampMetadata (validateSchema r) (ensureRejectionReason (setValidationConfidence
      (ensureTrace (fixNonElectionLogic r))))).summary = r.summary := by
    rw [stamp_summary, err_summary, svc_summary, et_summary, fnel_summary]
  have hSdoc : (stampMetadata (validateSchema r) (ensureRejectionReason (setValidationConfidence
      (ensureTrace (fixNonElectionLogic r))))).documentType = r.documentType := by
    rw [stamp_documentType, err_documentType, svc_documentType, et_documentType,
        fnel_documentType]
  have hScat : (stampMetadata (validateSchema r) (ensureRejectionReason (setValidationConfidence
      (ensureTrace (fixNonElectionLogic r))))).categories = r.categories := by
    rw [stamp_categories, err_categories, svc_categories, et_categories, fnel_categories]
  have hSext : (stampMetadata (validateSchema r) (ensureRejectionReason (setValidationConfidence
      (ensureTrace (fixNonElectionLogic r))))).extractedText = r.extractedText := by
    rw [stamp_extractedText, err_extractedText, svc_extractedText, et_extractedText,
        fnel_extractedText]
  have hStrace : (stampMetadata (validateSchema r) (ensureRejectionReason (setValidationConfidence
      (ensureTrace (fixNonElectionLogic r)))))._analysis_trace =
      (ensureTrace (fixNonElectionLogic r))._analysis_trace := by
    rw [stamp_trace, err_trace, svc_trace]
  have hStraceSome : (stampMetadata (validateSchema r) (ensureRejectionReason
      (setValidationConfidence (ensureTrace (fixNonElectionLogic r)))))._analysis_trace.isSome := by
    rw [hStrace]
    exact et_trace_isSome _
  have hron : r.overallScore.isNone = false := (validateSchema_nil_facts r h1).2
  have hfon : (fixNonElectionLogic r).overallScore.isNone = false := by
    rcases fnel_overallScore_isNone r with h | h
    · exact h
    · rw [h]
      exact hron
  have hSschema : validateSchema (stampMetadata (validateSchema r) (ensureRejectionReason
      (setValidationConfidence (ensureTrace (fixNonElectionLogic r))))) = validateSchema r := by
    apply validateSchema_congr
    · rw [hSic, fnel_isCompliant_isNone]
    · rw [hSova, hfon, hron]
    · exact hSsum
    · exact hSdoc
    · exact hScat
    · rw [hSext]
  have hSnil : validateSchema (stampMetadata (validateSchema r) (ensureRejectionReason
      (setValidationConfidence (ensureTrace (fixNonElectionLogic r))))) = [] :=
    hSschema.trans h1
  have hSwarn : numberWarnings (stampMetadata (validateSchema r) (ensureRejectionReason
      (setValidationConfidence (ensureTrace (fixNonElectionLogic r))))) = [] := by
    rw [numberWarnings_congr _ r hScat hSext]
    exact h2
  have hSraw : rawTextOf (stampMetadata (validateSchema r) (ensureRejectionReason
      (setValidationConfidence (ensureTrace (fixNonElectionLogic r))))) = rawTextOf r :=
    rawTextOf_congr _ _ hSext
  have hfnelS : ∀ dt, (stampMetadata (validateSchema r) (ensureRejectionReason
      (setValidationConfidence (ensureTrace (fixNonElectionLogic r))))).documentType = some dt →
      dt.isElectionPropaganda = some false →
      (stampMetadata (validateSchema r) (ensureRejectionReason (setValidationConfidence
        (ensureTrace (fixNonElectionLogic r))))).isCompliant ≠ some true := by
    intro dt hdt hep
    rw [hSic]
    apply fnel_not_true
    rw [hSdoc] at hdt
    rw [hdt]
    simpa using hep
  have hvcS : (stampMetadata (validateSchema r) (ensureRejectionReason (setValidationConfidence
      (ensureTrace (fixNonElectionLogic r))))).validationConfidence =
      some (calculateConfidence (stampMetadata (validateSchema r) (ensureRejectionReason
        (setValidationConfidence (ensureTrace (fixNonElectionLogic r)))))) := by
    rw [stamp_validationConfidence, err_validationConfidence, svc_validationConfidence]
    congr 1
    apply calculateConfidence_congr
    · exact hStrace.symm
    · exact hSicB.symm
    · rw [hSdoc, et_documentType, fnel_documentType]
    · rw [hScat, et_categories, fnel_categories]
  have hcondS : (!(jsTruthy (stampMetadata (validateSchema r) (ensureRejectionReason
      (setValidationConfidence (ensureTrace (fixNonElectionLogic r))))).isCompliant) &&
      strOptFalsy (stampMetadata (validateSchema r) (ensureRejectionReason
        (setValidationConfidence (ensureTrace (fixNonElectionLogic r))))).rejectionReason)
      = false := by
    rw [hSicB, stamp_rejectionReason, err_rejectionReason_spec, svc_isCompliant,
        svc_rejectionReason]
    cases hjt : jsTruthy ((ensureTrace (fixNonElectionLogic r)).isCompliant) with
    | true => simp [hjt]
    | false =>
      simp only [hjt, Bool.not_false, Bool.true_and]
      cases hf : strOptFalsy ((ensureTrace (fixNonElectionLogic r)).rejectionReason) with
      | true =>
        simp only [hf, if_true]
        simp [strOptFalsy, beq_eq_false_iff_ne,
          generateRejectionReason_ne]
      | false =>
        simp [hf]
  have hmetaS : (stampMetadata (validateSchema r) (ensureRejectionReason (setValidationConfidence
      (ensureTrace (fixNonElectionLogic r))))).metadata =
      (stampMetadata (validateSchema (stampMetadata (validateSchema r) (ensureRejectionReason
        (setValidationConfidence (ensureTrace (fixNonElectionLogic r))))))
        (stampMetadata (validateSchema r) (ensureRejectionReason (setValidationConfidence
          (ensureTrace (fixNonElectionLogic r)))))).metadata := by
    rw [stamp_metadata, stamp_metadata, stamp_trace, hSschema]
  rw [hR]
  simp only [validateAndEnrichResult]
  rw [asv_id _ hSnil, fnel_id _ hfnelS, et_id _ hStraceSome, vnd_id _ hSwarn,
      vtc_id _ (by rw [hSraw]; exact h3) (by rw [hSraw]; exact h4) (by rw [hSraw]; exact h5),
      svc_id _ hvcS, err_id _ hcondS]
  exact stamp_id _ _ hmetaS

/-- Counterexample input for C2: a flagged `CANDIDATE_NUMBER` violation
with an 8-digit contact number in the raw text. -/
def cexC2input : Result :=
  { isCompliant := some false, overallScore := some 40, summary := "s",
    rejectionReason := some "Please remove the candidate number",
    documentType := some { isElectionPropaganda := some true,
                           actualType := "election_poster",
                           confidence := 90, reasoning := "poster with details" },
    categories := some { prohibitedContent := some { status := "fail", items :=
                           [{ rule := "CANDIDATE_NUMBER", found := true, confidence := 90,
                              details := "standalone number 12345678",
                              location := "center" }] },
                         requiredContent := some {}, contentScope := some {},
                         languageEthics := some {} },
    extractedText := some { rawText := "12345678" },
    _analysis_trace := some sampleTrace }

/-- C2 as stated is false: `validateNumberDetection` re-appends its
warnings on every pass (there is no dedup on `warnings`), so a second
reconciliation run duplicates both number warnings and changes the
result. -/
theorem c2_counterexample :
    (validateAndEnrichResult cexC2input).warnings.length = 2 ∧
    (validateAndEnrichResult (validateAndEnrichResult cexC2input)).warnings.length = 4 ∧
    validateAndEnrichResult (validateAndEnrichResult cexC2input) ≠
      validateAndEnrichResult cexC2input :=
  ⟨by decide, by decide, by decide⟩

/-- Witness input for the amended C2: a schema-complete compliant result
with no number findings and no deterministic pattern matches. -/
def c2w : Result :=
  { isCompliant := some true, overallScore := some 90, summary := "ok",
    documentType := some { isElectionPropaganda := some true,
                           actualType := "election_poster",
                           confidence := 95, reasoning := "clean election poster layout" },
    categories := some emptyCats,
    extractedText := some { rawText := "مرشحكم لخدمة الولاية" },
    _analysis_trace := some sampleTrace }

theorem c2_witness :
    validateSchema c2w = [] ∧
    numberWarnings c2w = [] ∧
    jobSeekerPattern.test (rawTextOf c2w) = false ∧
    completeServicePattern.test (rawTextOf c2w) = false ∧
    seekObtainPattern.test (rawTextOf c2w) = false ∧
    validateAndEnrichResult (validateAndEnrichResult c2w) = validateAndEnrichResult c2w :=
  ⟨by decide, by decide, by decide, by decide, by decide,
   c2_idempotent_when_stable c2w (by decide) (by decide) (by decide) (by decide) (by decide)⟩

/-- Input for the C10 witness: no categories at all, so no scored items. -/
def w10 : Result := {}

theorem c10_witness :
    scoredConfidences w10 = [] ∧ getAverageItemConfidence w10 = 85 ∧
      ¬(getAverageItemConfidence w10 < 70) :=
  ⟨by decide, ((c10_zero_confidence_excluded).2 w10 (by decide)).1,
   ((c10_zero_confidence_excluded).2 w10 (by decide)).2⟩
